import Mathlib

/-!
# Verification of `quixstreams/state/base/transaction.py`

A shallow embedding of the `PartitionTransaction` class of the repository's
state layer, together with proofs of the specified properties.

Modelling conventions:
* Byte strings become `List Nat`.
* Python dicts (which preserve insertion order, update in place, and append
  new keys at the end) become association lists with `dictGet` / `dictInsert`.
* Domain keys and values share one type `Val`; the caller-supplied codec
  `dumps` may fail (Python: raise), so it returns `Except String Bytes`.
* Raised exceptions become an explicit `StateError` value.  Methods that may
  mutate the transaction return the (possibly raised) error together with the
  resulting transaction state.
* Side effects on external collaborators (the store partition's `write`, the
  changelog producer's `produce`, the call to `get_changelog_offset`) are
  returned as explicit effect data so theorems can talk about them.
-/

set_option synthInstance.maxSize 1024

deriving instance DecidableEq for Except

abbrev Bytes := List Nat

/-- Lifecycle states of a partition transaction (`PartitionTransactionStatus`). -/
inductive PartitionTransactionStatus where
  | STARTED
  | PREPARED
  | COMPLETE
  | FAILED
deriving DecidableEq, Repr

/-- A value stored in the update cache: real bytes, or the `DELETED` tombstone.
An absent entry plays the role of the `UNDEFINED` sentinel. -/
inductive CachedValue where
  | deleted
  | val (b : Bytes)
deriving DecidableEq, Repr

/-- Errors raised by transaction methods.  `invalidTransactionState` embeds the
`StateTransactionError` raised by `validate_transaction_status` (the spec calls
this error kind `InvalidTransactionState`); `invalidChangelogOffset` embeds
`InvalidChangelogOffset`; `serialization` embeds an exception raised by the
caller-supplied codec inside serialize/deserialize. -/
inductive StateError where
  | invalidTransactionState (status : PartitionTransactionStatus)
  | invalidChangelogOffset
  | serialization (msg : String)
deriving DecidableEq, Repr

/-- Ordered-dict lookup: first (hence only) binding of the key. -/
def dictGet {κ α : Type} [DecidableEq κ] : List (κ × α) → κ → Option α
  | [], _ => none
  | (k', v') :: rest, k => if k' = k then some v' else dictGet rest k

/-- Ordered-dict update: replace in place if the key is present (preserving
its position), otherwise append at the end — Python dict assignment. -/
def dictInsert {κ α : Type} [DecidableEq κ] : List (κ × α) → κ → α → List (κ × α)
  | [], k, v => [(k, v)]
  | (k', v') :: rest, k, v =>
    if k' = k then (k, v) :: rest else (k', v') :: dictInsert rest k v

/-- The three-level update cache `CACHE_TYPE`:
column-family name → key prefix → serialized key → bytes-or-tombstone. -/
abbrev CACHE_TYPE := List (String × List (Bytes × List (Bytes × CachedValue)))

instance : DecidableEq CACHE_TYPE := inferInstance

/-- `_update_cache.get(cf_name, {}).get(prefix, {}).get(key_serialized, UNDEFINED)`;
`none` plays the role of `UNDEFINED`. -/
def cacheGet (cache : CACHE_TYPE) (cf_name : String) (pfx key : Bytes) :
    Option CachedValue :=
  dictGet ((dictGet ((dictGet cache cf_name).getD []) pfx).getD []) key

/-- `_update_cache.setdefault(cf_name, {}).setdefault(prefix, {})[key] = value`. -/
def cacheInsert (cache : CACHE_TYPE) (cf_name : String) (pfx key : Bytes)
    (v : CachedValue) : CACHE_TYPE :=
  let cfc := (dictGet cache cf_name).getD []
  let pc := (dictGet cfc pfx).getD []
  dictInsert cache cf_name (dictInsert cfc pfx (dictInsert pc key v))

/-- The persistent store partition collaborator (`StorePartition`), at its
interface boundary: point `get`/`exists` and the recorded changelog offset
(`get_changelog_offset`).  `none` from `get` plays the role of the
`UNDEFINED` default passed by the transaction. -/
structure StorePartition where
  get : Bytes → String → Option Bytes
  existsKey : Bytes → String → Bool
  changelogOffset : Option Int

/-- The separator inserted between a non-empty prefix and the key bytes
(`PREFIX_SEPARATOR` from `quixstreams.state.metadata`, a fixed single byte). -/
def PREFIX_SEPARATOR : Bytes := [124]

/-- Changelog message header carrying the column-family name
(`CHANGELOG_CF_MESSAGE_HEADER` from `quixstreams.state.metadata`). -/
def CHANGELOG_CF_MESSAGE_HEADER : String := "__column_family__"

/-- Changelog message header carrying the JSON-encoded processed offset
(`CHANGELOG_PROCESSED_OFFSET_MESSAGE_HEADER` from `quixstreams.state.metadata`). -/
def CHANGELOG_PROCESSED_OFFSET_MESSAGE_HEADER : String := "__processed_tp_offset__"

/-- `quixstreams.utils.json.dumps` applied to an integer offset: its JSON
encoding is its decimal representation. -/
def json_dumps (n : Int) : String := toString n

/-- A record handed to `ChangelogProducer.produce`: `value := none` encodes
producing with `value=None` (a tombstone). -/
structure ChangelogRecord where
  key : Bytes
  value : Option Bytes
  headers : List (String × String)
deriving DecidableEq, Repr

/-- One call to `StorePartition.write(data, processed_offset, changelog_offset)`. -/
structure WriteCall where
  data : CACHE_TYPE
  processed_offset : Option Int
  changelog_offset : Option Int
deriving DecidableEq, Repr

/-- The externally visible effects of a `flush` call: the `write` calls made on
the store partition, and whether `get_changelog_offset` was consulted. -/
structure FlushEffects where
  writes : List WriteCall
  offset_consulted : Bool
deriving DecidableEq, Repr

def FlushEffects.none : FlushEffects := ⟨[], false⟩

/-- The `PartitionTransaction` state: lifecycle status, codec, store partition,
whether a changelog producer is attached, and the update cache. -/
structure PartitionTransaction (Val : Type) where
  status : PartitionTransactionStatus
  dumps : Val → Except String Bytes
  loads : Bytes → Val
  partition : StorePartition
  has_changelog_producer : Bool
  update_cache : CACHE_TYPE

namespace PartitionTransaction

variable {Val : Type}

/-- `failed` property: `self._status == PartitionTransactionStatus.FAILED`. -/
def failed (tx : PartitionTransaction Val) : Bool :=
  tx.status = PartitionTransactionStatus.FAILED

/-- `completed` property. -/
def completed (tx : PartitionTransaction Val) : Bool :=
  tx.status = PartitionTransactionStatus.COMPLETE

/-- `prepared` property. -/
def prepared (tx : PartitionTransaction Val) : Bool :=
  tx.status = PartitionTransactionStatus.PREPARED

/-- `_serialize_value`: `serialize(value, dumps=self._dumps)`. -/
def serializeValue (tx : PartitionTransaction Val) (value : Val) :
    Except String Bytes :=
  tx.dumps value

/-- `_deserialize_value`: `deserialize(value, loads=self._loads)`. -/
def deserializeValue (tx : PartitionTransaction Val) (value : Bytes) : Val :=
  tx.loads value

/-- `_serialize_key`: serialize the key, then prepend
`prefix + PREFIX_SEPARATOR` when the prefix is non-empty (empty bytes are
falsy in Python, so an empty prefix contributes nothing). -/
def serializeKey (tx : PartitionTransaction Val) (key : Val) (pfx : Bytes) :
    Except String Bytes :=
  match tx.dumps key with
  | Except.error e => Except.error e
  | Except.ok key_bytes =>
    Except.ok ((if pfx ≠ [] then pfx ++ PREFIX_SEPARATOR else []) ++ key_bytes)

/-- `get(key, prefix, default, cf_name)`.  Returns the value (or the default)
together with a flag recording whether the store partition was consulted. -/
def get (tx : PartitionTransaction Val) (key : Val) (pfx : Bytes)
    (default : Option Val) (cf_name : String) :
    Except StateError (Option Val × Bool) :=
  if tx.status ≠ PartitionTransactionStatus.STARTED then
    Except.error (StateError.invalidTransactionState tx.status)
  else
    match tx.serializeKey key pfx with
    | Except.error e => Except.error (StateError.serialization e)
    | Except.ok key_serialized =>
      match cacheGet tx.update_cache cf_name pfx key_serialized with
      | some CachedValue.deleted => Except.ok (default, false)
      | some (CachedValue.val cached) => Except.ok (some (tx.loads cached), false)
      | none =>
        match tx.partition.get key_serialized cf_name with
        | none => Except.ok (default, true)
        | some stored => Except.ok (some (tx.loads stored), true)

/-- `set(key, value, prefix, cf_name)`.  Returns the raised error (if any)
together with the resulting transaction: a guard failure leaves the
transaction unchanged; a serialization failure moves it to FAILED. -/
def set (tx : PartitionTransaction Val) (key value : Val) (pfx : Bytes)
    (cf_name : String) :
    Except StateError Unit × PartitionTransaction Val :=
  if tx.status ≠ PartitionTransactionStatus.STARTED then
    (Except.error (StateError.invalidTransactionState tx.status), tx)
  else
    match tx.serializeKey key pfx with
    | Except.error e =>
      (Except.error (StateError.serialization e),
       { tx with status := PartitionTransactionStatus.FAILED })
    | Except.ok key_serialized =>
      match tx.dumps value with
      | Except.error e =>
        (Except.error (StateError.serialization e),
         { tx with status := PartitionTransactionStatus.FAILED })
      | Except.ok value_serialized =>
        let cache := cacheInsert tx.update_cache cf_name pfx key_serialized
          (CachedValue.val value_serialized)
        (Except.ok (), { tx with update_cache := cache })

/-- `delete(key, prefix, cf_name)`: store the `DELETED` tombstone. -/
def delete (tx : PartitionTransaction Val) (key : Val) (pfx : Bytes)
    (cf_name : String) :
    Except StateError Unit × PartitionTransaction Val :=
  if tx.status ≠ PartitionTransactionStatus.STARTED then
    (Except.error (StateError.invalidTransactionState tx.status), tx)
  else
    match tx.serializeKey key pfx with
    | Except.error e =>
      (Except.error (StateError.serialization e),
       { tx with status := PartitionTransactionStatus.FAILED })
    | Except.ok key_serialized =>
      let cache := cacheInsert tx.update_cache cf_name pfx key_serialized
        CachedValue.deleted
      (Except.ok (), { tx with update_cache := cache })

/-- `exists(key, prefix, cf_name)`.  Returns the boolean together with a flag
recording whether the store partition was consulted. -/
def existsKey (tx : PartitionTransaction Val) (key : Val) (pfx : Bytes)
    (cf_name : String) :
    Except StateError (Bool × Bool) :=
  if tx.status ≠ PartitionTransactionStatus.STARTED then
    Except.error (StateError.invalidTransactionState tx.status)
  else
    match tx.serializeKey key pfx with
    | Except.error e => Except.error (StateError.serialization e)
    | Except.ok key_serialized =>
      match cacheGet tx.update_cache cf_name pfx key_serialized with
      | some CachedValue.deleted => Except.ok (false, false)
      | some (CachedValue.val _) => Except.ok (true, false)
      | none => Except.ok (tx.partition.existsKey key_serialized cf_name, true)

end PartitionTransaction

/-- `value if value is not DELETED else None`: the value handed to
`ChangelogProducer.produce` for a cached entry. -/
def CachedValue.toProduced : CachedValue → Option Bytes
  | CachedValue.deleted => none
  | CachedValue.val b => some b

namespace PartitionTransaction

variable {Val : Type}

/-- The records produced for the entries of one `(cf, prefix)` bucket, in
insertion order: tombstones (`DELETED`) are produced with `value=None`. -/
def keyRecords (headers : List (String × String)) :
    List (Bytes × CachedValue) → List ChangelogRecord
  | [] => []
  | (key, v) :: rest =>
    { key := key, value := v.toProduced, headers := headers }
      :: keyRecords headers rest

/-- The records produced for all prefixes of one column family. -/
def cfRecords (headers : List (String × String)) :
    List (Bytes × List (Bytes × CachedValue)) → List ChangelogRecord
  | [] => []
  | (_, pc) :: rest => keyRecords headers pc ++ cfRecords headers rest

/-- The headers attached to every record of a column family: the cf name and
the JSON-encoded processed offset. -/
def cfHeaders (cf_name : String) (processed_offset : Int) :
    List (String × String) :=
  [(CHANGELOG_CF_MESSAGE_HEADER, cf_name),
   (CHANGELOG_PROCESSED_OFFSET_MESSAGE_HEADER, json_dumps processed_offset)]

/-- The loop of `_prepare`: for each column family, produce one record per
cached `(prefix, key)` entry, headers carrying the cf name and offset. -/
def prepareRecords (cache : CACHE_TYPE) (processed_offset : Int) :
    List ChangelogRecord :=
  match cache with
  | [] => []
  | (cf_name, cfc) :: rest =>
    cfRecords (cfHeaders cf_name processed_offset) cfc
      ++ prepareRecords rest processed_offset

/-- `_prepare(processed_offset)`: no producer → no records. -/
def prepareInner (tx : PartitionTransaction Val) (processed_offset : Int) :
    List ChangelogRecord :=
  if tx.has_changelog_producer then
    prepareRecords tx.update_cache processed_offset
  else []

/-- `prepare(processed_offset)`: guarded to STARTED; on success the status
moves to PREPARED.  Returns the raised error (if any), the resulting
transaction, and the changelog records produced. -/
def prepare (tx : PartitionTransaction Val) (processed_offset : Int) :
    Except StateError Unit × PartitionTransaction Val × List ChangelogRecord :=
  if tx.status ≠ PartitionTransactionStatus.STARTED then
    (Except.error (StateError.invalidTransactionState tx.status), tx, [])
  else
    (Except.ok (),
     { tx with status := PartitionTransactionStatus.PREPARED },
     tx.prepareInner processed_offset)

/-- `_flush(processed_offset, changelog_offset)`: empty cache → return
immediately; otherwise check the changelog-offset monotonicity (consulting
`get_changelog_offset` only when a `changelog_offset` was supplied), then
write the whole update cache with both offsets in one batch. -/
def flushInner (tx : PartitionTransaction Val)
    (processed_offset changelog_offset : Option Int) :
    Except StateError Unit × FlushEffects :=
  if tx.update_cache = [] then (Except.ok (), ⟨[], false⟩)
  else
    match changelog_offset with
    | some off =>
      match tx.partition.changelogOffset with
      | some current =>
        if off < current then
          (Except.error StateError.invalidChangelogOffset, ⟨[], true⟩)
        else
          (Except.ok (),
           ⟨[⟨tx.update_cache, processed_offset, changelog_offset⟩], true⟩)
      | none =>
        (Except.ok (),
         ⟨[⟨tx.update_cache, processed_offset, changelog_offset⟩], true⟩)
    | none =>
      (Except.ok (),
       ⟨[⟨tx.update_cache, processed_offset, changelog_offset⟩], false⟩)

/-- `flush(processed_offset, changelog_offset)`: guarded to STARTED or
PREPARED; on success the status moves to COMPLETE, on failure to FAILED and
the error re-raises. -/
def flush (tx : PartitionTransaction Val)
    (processed_offset changelog_offset : Option Int) :
    Except StateError Unit × PartitionTransaction Val × FlushEffects :=
  if tx.status ≠ PartitionTransactionStatus.STARTED ∧
      tx.status ≠ PartitionTransactionStatus.PREPARED then
    (Except.error (StateError.invalidTransactionState tx.status), tx, ⟨[], false⟩)
  else
    match tx.flushInner processed_offset changelog_offset with
    | (Except.ok (), eff) =>
      (Except.ok (), { tx with status := PartitionTransactionStatus.COMPLETE }, eff)
    | (Except.error e, eff) =>
      (Except.error e, { tx with status := PartitionTransactionStatus.FAILED }, eff)

/-- `__exit__(exc_type, exc_val, exc_tb)`: flush (with default `None` offsets)
only when no exception is in flight and the transaction has not failed.
`exc` records whether the context-manager body raised; the returned Bool
records whether a flush was attempted. -/
def exitScope (tx : PartitionTransaction Val) (exc : Bool) :
    Bool × (Except StateError Unit × PartitionTransaction Val × FlushEffects) :=
  if exc = false ∧ tx.failed = false then
    (true, tx.flush none none)
  else
    (false, (Except.ok (), tx, ⟨[], false⟩))

end PartitionTransaction

/-- Total number of cached entries in one column family. -/
def cfCount : List (Bytes × List (Bytes × CachedValue)) → Nat
  | [] => 0
  | (_, pc) :: rest => pc.length + cfCount rest

/-- Total number of cached `(cf, prefix, key)` entries in the update cache. -/
def cacheEntryCount : CACHE_TYPE → Nat
  | [] => 0
  | (_, cfc) :: rest => cfCount cfc + cacheEntryCount rest

/-! ## Concrete instances used by the witnesses -/

/-- A codec over `Nat` values: a number is encoded as a one-byte string. -/
def natDumps (n : Nat) : Except String Bytes := Except.ok [n]

/-- The matching decoder. -/
def natLoads (b : Bytes) : Nat := b.headD 0

/-- A codec that raises on the value `99` (used to model a serialization
failure). -/
def failingDumps (n : Nat) : Except String Bytes :=
  if n = 99 then Except.error "boom" else Except.ok [n]

/-- A store partition holding the byte string `[7]` at every key, with a
recorded changelog offset of `10`. -/
def examplePartition : StorePartition :=
  { get := fun _ _ => some [7]
    existsKey := fun _ _ => true
    changelogOffset := some 10 }

/-- A fresh transaction over `examplePartition` with the `Nat` codec and a
changelog producer attached. -/
def exampleTx : PartitionTransaction Nat :=
  { status := PartitionTransactionStatus.STARTED
    dumps := natDumps
    loads := natLoads
    partition := examplePartition
    has_changelog_producer := true
    update_cache := [] }

/-- `exampleTx` after a successful flush (status COMPLETE). -/
def exampleTxComplete : PartitionTransaction Nat :=
  { exampleTx with status := PartitionTransactionStatus.COMPLETE }

/-- `exampleTx` with one pending write in its update cache. -/
def exampleTxDirty : PartitionTransaction Nat :=
  { exampleTx with
      update_cache := [("default", [([], [([5], CachedValue.val [6])])])] }

/-- `exampleTx` with the codec that raises on the value `99`. -/
def exampleTxF : PartitionTransaction Nat :=
  { exampleTx with dumps := failingDumps }

/-! ## Dictionary and cache lemmas -/

theorem dictGet_dictInsert_self {κ α : Type} [DecidableEq κ]
    (d : List (κ × α)) (k : κ) (v : α) :
    dictGet (dictInsert d k v) k = some v := by
  induction d with
  | nil => simp [dictInsert, dictGet]
  | cons hd tl ih =>
    obtain ⟨k', v'⟩ := hd
    by_cases h : k' = k
    · simp [dictInsert, dictGet, h]
    · simp [dictInsert, dictGet, h, ih]

theorem cacheGet_cacheInsert_self (cache : CACHE_TYPE) (cf_name : String)
    (pfx key : Bytes) (v : CachedValue) :
    cacheGet (cacheInsert cache cf_name pfx key v) cf_name pfx key = some v := by
  unfold cacheGet cacheInsert
  simp [dictGet_dictInsert_self]

/-- The column-family name used by default arguments throughout the code. -/
def defaultCf : String := "default"

/-! ## Helper lemmas about `flush` -/

theorem flush_guard_error {Val : Type} (tx : PartitionTransaction Val)
    (h : tx.status ≠ PartitionTransactionStatus.STARTED ∧
         tx.status ≠ PartitionTransactionStatus.PREPARED)
    (po co : Option Int) :
    tx.flush po co
      = (Except.error (StateError.invalidTransactionState tx.status), tx,
         ⟨[], false⟩) := by
  unfold PartitionTransaction.flush
  rw [if_pos h]

theorem flush_ok_complete {Val : Type} (tx : PartitionTransaction Val)
    (po co : Option Int) (h : (tx.flush po co).1 = Except.ok ()) :
    (tx.flush po co).2.1.status = PartitionTransactionStatus.COMPLETE := by
  unfold PartitionTransaction.flush at h ⊢
  by_cases hg : tx.status ≠ PartitionTransactionStatus.STARTED ∧
      tx.status ≠ PartitionTransactionStatus.PREPARED
  · rw [if_pos hg] at h
    simp at h
  · rw [if_neg hg] at h ⊢
    rcases hfi : tx.flushInner po co with ⟨r, eff⟩
    rw [hfi] at h
    cases r with
    | error e => exact Except.noConfusion h
    | ok u => cases u; rfl

theorem flush_empty {Val : Type} (tx : PartitionTransaction Val)
    (hs : tx.status = PartitionTransactionStatus.STARTED ∨
          tx.status = PartitionTransactionStatus.PREPARED)
    (hc : tx.update_cache = []) (po co : Option Int) :
    tx.flush po co
      = (Except.ok (),
         { tx with status := PartitionTransactionStatus.COMPLETE },
         ⟨[], false⟩) := by
  have hg : ¬(tx.status ≠ PartitionTransactionStatus.STARTED ∧
      tx.status ≠ PartitionTransactionStatus.PREPARED) := by
    rcases hs with h | h <;> simp [h]
  simp [PartitionTransaction.flush, PartitionTransaction.flushInner, hg, hc]

theorem flushInner_offset_violation {Val : Type} (tx : PartitionTransaction Val)
    (hc : tx.update_cache ≠ []) (m current : Int)
    (hcur : tx.partition.changelogOffset = some current) (hlt : m < current)
    (po : Option Int) :
    tx.flushInner po (some m)
      = (Except.error StateError.invalidChangelogOffset, ⟨[], true⟩) := by
  simp [PartitionTransaction.flushInner, hc, hcur, hlt]

/-! ## Helper lemmas about changelog record emission -/

theorem keyRecords_eq_map (headers : List (String × String))
    (pc : List (Bytes × CachedValue)) :
    PartitionTransaction.keyRecords headers pc
      = pc.map (fun e =>
          { key := e.1, value := e.2.toProduced, headers := headers }) := by
  induction pc with
  | nil => simp [PartitionTransaction.keyRecords]
  | cons hd tl ih => simp [PartitionTransaction.keyRecords, ih]

theorem keyRecords_length (headers : List (String × String))
    (pc : List (Bytes × CachedValue)) :
    (PartitionTransaction.keyRecords headers pc).length = pc.length := by
  rw [keyRecords_eq_map]
  exact List.length_map pc _

theorem mem_keyRecords_iff (headers : List (String × String))
    (pc : List (Bytes × CachedValue)) (r : ChangelogRecord) :
    r ∈ PartitionTransaction.keyRecords headers pc ↔
      ∃ e ∈ pc,
        r = { key := e.1, value := e.2.toProduced, headers := headers } := by
  rw [keyRecords_eq_map, List.mem_map]
  constructor
  · rintro ⟨e, he, rfl⟩
    exact ⟨e, he, rfl⟩
  · rintro ⟨e, he, rfl⟩
    exact ⟨e, he, rfl⟩

theorem cfRecords_length (headers : List (String × String))
    (cfc : List (Bytes × List (Bytes × CachedValue))) :
    (PartitionTransaction.cfRecords headers cfc).length = cfCount cfc := by
  induction cfc with
  | nil => simp [PartitionTransaction.cfRecords, cfCount]
  | cons hd tl ih =>
    obtain ⟨p, pc⟩ := hd
    simp [PartitionTransaction.cfRecords, cfCount, keyRecords_length, ih]

theorem mem_cfRecords_iff (headers : List (String × String))
    (cfc : List (Bytes × List (Bytes × CachedValue))) (r : ChangelogRecord) :
    r ∈ PartitionTransaction.cfRecords headers cfc ↔
      ∃ b ∈ cfc, r ∈ PartitionTransaction.keyRecords headers b.2 := by
  induction cfc with
  | nil => simp [PartitionTransaction.cfRecords]
  | cons hd tl ih =>
    obtain ⟨p, pc⟩ := hd
    simp [PartitionTransaction.cfRecords, List.mem_append, ih]

theorem prepareRecords_length (cache : CACHE_TYPE) (off : Int) :
    (PartitionTransaction.prepareRecords cache off).length
      = cacheEntryCount cache := by
  induction cache with
  | nil => simp [PartitionTransaction.prepareRecords, cacheEntryCount]
  | cons hd tl ih =>
    obtain ⟨cf, cfc⟩ := hd
    simp [PartitionTransaction.prepareRecords, cacheEntryCount,
      cfRecords_length, ih]

theorem mem_prepareRecords_iff (cache : CACHE_TYPE) (off : Int)
    (r : ChangelogRecord) :
    r ∈ PartitionTransaction.prepareRecords cache off ↔
      ∃ c ∈ cache,
        r ∈ PartitionTransaction.cfRecords
              (PartitionTransaction.cfHeaders c.1 off) c.2 := by
  induction cache with
  | nil => simp [PartitionTransaction.prepareRecords]
  | cons hd tl ih =>
    obtain ⟨cf, cfc⟩ := hd
    simp [PartitionTransaction.prepareRecords, List.mem_append, ih]

/-! ## Claim theorems -/

/-- C1: for every transaction whose status is not STARTED, each of `get`,
`set`, `delete` and `exists` fails with the invalid-transaction-state error
and performs no side effect (the update cache and status are unchanged); in
particular `set` after a successful `prepare` raises, and a second `flush`
after a successful `flush` raises on the second call. -/
theorem C1_status_guard {Val : Type} (tx : PartitionTransaction Val)
    (h : tx.status ≠ PartitionTransactionStatus.STARTED)
    (key value : Val) (pfx : Bytes) (default : Option Val) (cf_name : String) :
    tx.get key pfx default cf_name
        = Except.error (StateError.invalidTransactionState tx.status) ∧
    tx.set key value pfx cf_name
        = (Except.error (StateError.invalidTransactionState tx.status), tx) ∧
    tx.delete key pfx cf_name
        = (Except.error (StateError.invalidTransactionState tx.status), tx) ∧
    tx.existsKey key pfx cf_name
        = Except.error (StateError.invalidTransactionState tx.status) ∧
    (∀ (u : PartitionTransaction Val) (po : Int),
      u.status = PartitionTransactionStatus.STARTED →
      (u.prepare po).2.1.set key value pfx cf_name
        = (Except.error (StateError.invalidTransactionState
             PartitionTransactionStatus.PREPARED),
           (u.prepare po).2.1)) ∧
    (∀ (u : PartitionTransaction Val) (po co po2 co2 : Option Int),
      (u.flush po co).1 = Except.ok () →
      ((u.flush po co).2.1.flush po2 co2).1
        = Except.error (StateError.invalidTransactionState
            PartitionTransactionStatus.COMPLETE)) := by
  refine ⟨?_, ?_, ?_, ?_, ?_, ?_⟩
  · unfold PartitionTransaction.get
    rw [if_pos h]
  · unfold PartitionTransaction.set
    rw [if_pos h]
  · unfold PartitionTransaction.delete
    rw [if_pos h]
  · unfold PartitionTransaction.existsKey
    rw [if_pos h]
  · intro u po hst
    have hpre : (u.prepare po).2.1
        = { u with status := PartitionTransactionStatus.PREPARED } := by
      simp [PartitionTransaction.prepare, hst]
    rw [hpre]
    unfold PartitionTransaction.set
    simp
  · intro u po co po2 co2 hok
    have hC := flush_ok_complete u po co hok
    have hg : (u.flush po co).2.1.status ≠ PartitionTransactionStatus.STARTED ∧
        (u.flush po co).2.1.status ≠ PartitionTransactionStatus.PREPARED := by
      rw [hC]; exact ⟨by simp, by simp⟩
    rw [flush_guard_error _ hg po2 co2]
    simp [hC]

/-- Witness for C1 at a concrete transaction in the COMPLETE state. -/
theorem C1_status_guard_witness :
    exampleTxComplete.get 0 [] Option.none defaultCf
        = Except.error (StateError.invalidTransactionState
            PartitionTransactionStatus.COMPLETE) ∧
    exampleTxComplete.set 0 1 [] defaultCf
        = (Except.error (StateError.invalidTransactionState
             PartitionTransactionStatus.COMPLETE), exampleTxComplete) :=
  ⟨(C1_status_guard exampleTxComplete (by decide) 0 1 [] Option.none
      defaultCf).1,
   (C1_status_guard exampleTxComplete (by decide) 0 1 [] Option.none
      defaultCf).2.1⟩

/-- C2: with a non-empty update cache, flushing with a supplied changelog
offset strictly below the store's recorded one raises the
invalid-changelog-offset error, performs no write call, and moves the
transaction to FAILED. -/
theorem C2_offset_monotonicity {Val : Type} (tx : PartitionTransaction Val)
    (hs : tx.status = PartitionTransactionStatus.STARTED ∨
          tx.status = PartitionTransactionStatus.PREPARED)
    (hc : tx.update_cache ≠ []) (m current : Int)
    (hcur : tx.partition.changelogOffset = some current) (hlt : m < current)
    (po : Option Int) :
    tx.flush po (some m)
      = (Except.error StateError.invalidChangelogOffset,
         { tx with status := PartitionTransactionStatus.FAILED },
         ⟨[], true⟩) := by
  have hg : ¬(tx.status ≠ PartitionTransactionStatus.STARTED ∧
      tx.status ≠ PartitionTransactionStatus.PREPARED) := by
    rcases hs with h | h <;> simp [h]
  have hfi := flushInner_offset_violation tx hc m current hcur hlt po
  simp [PartitionTransaction.flush, hg, hfi]

/-- Witness for C2: recorded offset 10, supplied offset 3. -/
theorem C2_offset_monotonicity_witness :
    exampleTxDirty.flush (some 3) (some 3)
      = (Except.error StateError.invalidChangelogOffset,
         { exampleTxDirty with status := PartitionTransactionStatus.FAILED },
         ⟨[], true⟩) :=
  C2_offset_monotonicity exampleTxDirty (Or.inl rfl) (by decide) 3 10 rfl
    (by decide) (some 3)

/-- C3: a transaction whose update cache is empty flushes without any write
call to the store (no data, no offsets) and still moves to COMPLETE. -/
theorem C3_empty_cache_noop {Val : Type} (tx : PartitionTransaction Val)
    (hs : tx.status = PartitionTransactionStatus.STARTED ∨
          tx.status = PartitionTransactionStatus.PREPARED)
    (hc : tx.update_cache = []) (po co : Option Int) :
    tx.flush po co
      = (Except.ok (),
         { tx with status := PartitionTransactionStatus.COMPLETE },
         ⟨[], false⟩) :=
  flush_empty tx hs hc po co

/-- Witness for C3 on a fresh transaction. -/
theorem C3_empty_cache_noop_witness :
    exampleTx.flush (some 5) (some 5)
      = (Except.ok (),
         { exampleTx with status := PartitionTransactionStatus.COMPLETE },
         ⟨[], false⟩) :=
  C3_empty_cache_noop exampleTx (Or.inl rfl) rfl (some 5) (some 5)

/-- C4: in a STARTED transaction, `set` then `get` with the same prefix and
column family returns the value (deserialized) without consulting the
persistent store, whatever the store holds. -/
theorem C4_read_your_writes {Val : Type} (tx : PartitionTransaction Val)
    (hs : tx.status = PartitionTransactionStatus.STARTED)
    (key value : Val) (kb vb : Bytes)
    (hk : tx.dumps key = Except.ok kb)
    (hv : tx.dumps value = Except.ok vb)
    (hrt : tx.loads vb = value)
    (pfx : Bytes) (default : Option Val) (cf_name : String) :
    (tx.set key value pfx cf_name).1 = Except.ok () ∧
    (tx.set key value pfx cf_name).2.get key pfx default cf_name
      = Except.ok (some value, false) := by
  constructor
  · simp [PartitionTransaction.set, PartitionTransaction.serializeKey, hs,
      hk, hv]
  · simp [PartitionTransaction.set, PartitionTransaction.get,
      PartitionTransaction.serializeKey, hs, hk, hv,
      cacheGet_cacheInsert_self, hrt]

/-- Witness for C4: set key 1 to value 2 under prefix [9]. -/
theorem C4_read_your_writes_witness :
    (exampleTx.set 1 2 [9] defaultCf).1 = Except.ok () ∧
    (exampleTx.set 1 2 [9] defaultCf).2.get 1 [9] Option.none defaultCf
      = Except.ok (some 2, false) :=
  C4_read_your_writes exampleTx rfl 1 2 [1] [2] rfl rfl rfl [9] Option.none
    defaultCf

/-- C5: in a STARTED transaction, `delete` then `get` with a default returns
the default and `exists` returns false, without consulting the persistent
store — the tombstone shadows whatever the store holds. -/
theorem C5_delete_shadows {Val : Type} (tx : PartitionTransaction Val)
    (hs : tx.status = PartitionTransactionStatus.STARTED)
    (key : Val) (kb : Bytes) (hk : tx.dumps key = Except.ok kb)
    (pfx : Bytes) (d : Val) (cf_name : String) :
    (tx.delete key pfx cf_name).1 = Except.ok () ∧
    (tx.delete key pfx cf_name).2.get key pfx (some d) cf_name
      = Except.ok (some d, false) ∧
    (tx.delete key pfx cf_name).2.existsKey key pfx cf_name
      = Except.ok (false, false) := by
  refine ⟨?_, ?_, ?_⟩ <;>
    simp [PartitionTransaction.delete, PartitionTransaction.get,
      PartitionTransaction.existsKey, PartitionTransaction.serializeKey,
      hs, hk, cacheGet_cacheInsert_self]

/-- Witness for C5: delete key 1 under prefix [9]; the store partition holds
a value at every key, yet the read sees the tombstone. -/
theorem C5_delete_shadows_witness :
    (exampleTx.delete 1 [9] defaultCf).1 = Except.ok () ∧
    (exampleTx.delete 1 [9] defaultCf).2.get 1 [9] (some 42) defaultCf
      = Except.ok (some 42, false) ∧
    (exampleTx.delete 1 [9] defaultCf).2.existsKey 1 [9] defaultCf
      = Except.ok (false, false) :=
  C5_delete_shadows exampleTx rfl 1 [1] rfl [9] 42 defaultCf

/-- C6: in a STARTED transaction, a serialization failure inside `set` or
`delete` (for the key, or for the value in `set`) moves the status to FAILED
and re-raises the error. -/
theorem C6_serialization_fails_transaction {Val : Type}
    (tx : PartitionTransaction Val)
    (hs : tx.status = PartitionTransactionStatus.STARTED)
    (key value : Val) (pfx : Bytes) (cf_name : String) :
    (∀ e : String, tx.serializeKey key pfx = Except.error e →
      tx.set key value pfx cf_name
        = (Except.error (StateError.serialization e),
           { tx with status := PartitionTransactionStatus.FAILED }) ∧
      tx.delete key pfx cf_name
        = (Except.error (StateError.serialization e),
           { tx with status := PartitionTransactionStatus.FAILED })) ∧
    (∀ (ks : Bytes) (e : String), tx.serializeKey key pfx = Except.ok ks →
      tx.dumps value = Except.error e →
      tx.set key value pfx cf_name
        = (Except.error (StateError.serialization e),
           { tx with status := PartitionTransactionStatus.FAILED })) := by
  refine ⟨fun e he => ⟨?_, ?_⟩, fun ks e hks hv => ?_⟩
  · simp [PartitionTransaction.set, hs, he]
  · simp [PartitionTransaction.delete, hs, he]
  · simp [PartitionTransaction.set, hs, hks, hv]

/-- Witness for C6: the codec of `exampleTxF` raises on the value 99. -/
theorem C6_serialization_fails_transaction_witness :
    exampleTxF.set 99 1 [] defaultCf
      = (Except.error (StateError.serialization "boom"),
         { exampleTxF with status := PartitionTransactionStatus.FAILED }) ∧
    exampleTxF.delete 99 [] defaultCf
      = (Except.error (StateError.serialization "boom"),
         { exampleTxF with status := PartitionTransactionStatus.FAILED }) :=
  (C6_serialization_fails_transaction exampleTxF rfl 99 1 [] defaultCf).1
    "boom" (by decide)

/-- C7: with a changelog producer attached, a STARTED transaction's `prepare`
emits exactly one changelog record per cached `(cf, prefix, key)` entry
(tombstones are emitted with a null value rather than omitted), each record
carrying the column-family header and the JSON-encoded processed offset
header, and the status moves to PREPARED. -/
theorem C7_prepare_emits_changelog {Val : Type} (tx : PartitionTransaction Val)
    (hs : tx.status = PartitionTransactionStatus.STARTED)
    (hp : tx.has_changelog_producer = true) (off : Int) :
    tx.prepare off
      = (Except.ok (),
         { tx with status := PartitionTransactionStatus.PREPARED },
         PartitionTransaction.prepareRecords tx.update_cache off) ∧
    (PartitionTransaction.prepareRecords tx.update_cache off).length
      = cacheEntryCount tx.update_cache ∧
    (∀ (cf : String) cfc (p : Bytes) pc (k : Bytes) (v : CachedValue),
      (cf, cfc) ∈ tx.update_cache → (p, pc) ∈ cfc → (k, v) ∈ pc →
      ({ key := k, value := v.toProduced,
         headers := PartitionTransaction.cfHeaders cf off } : ChangelogRecord)
        ∈ PartitionTransaction.prepareRecords tx.update_cache off) ∧
    (∀ r ∈ PartitionTransaction.prepareRecords tx.update_cache off,
      ∃ cf cfc p pc v, (cf, cfc) ∈ tx.update_cache ∧ (p, pc) ∈ cfc ∧
        (r.key, v) ∈ pc ∧ r.value = v.toProduced ∧
        r.headers = [(CHANGELOG_CF_MESSAGE_HEADER, cf),
          (CHANGELOG_PROCESSED_OFFSET_MESSAGE_HEADER, json_dumps off)]) := by
  refine ⟨?_, prepareRecords_length _ _, ?_, ?_⟩
  · simp [PartitionTransaction.prepare, PartitionTransaction.prepareInner,
      hs, hp]
  · intro cf cfc p pc k v hcf hpp hkv
    rw [mem_prepareRecords_iff]
    refine ⟨(cf, cfc), hcf, ?_⟩
    rw [mem_cfRecords_iff]
    refine ⟨(p, pc), hpp, ?_⟩
    rw [mem_keyRecords_iff]
    exact ⟨(k, v), hkv, rfl⟩
  · intro r hr
    rw [mem_prepareRecords_iff] at hr
    obtain ⟨c, hc, hr⟩ := hr
    rw [mem_cfRecords_iff] at hr
    obtain ⟨b, hb, hr⟩ := hr
    rw [mem_keyRecords_iff] at hr
    obtain ⟨e, he, rfl⟩ := hr
    exact ⟨c.1, c.2, b.1, b.2, e.2, hc, hb, he, rfl, rfl⟩

/-- Witness for C7 on a transaction with one cached write. -/
theorem C7_prepare_emits_changelog_witness :
    exampleTxDirty.prepare 10
      = (Except.ok (),
         { exampleTxDirty with status := PartitionTransactionStatus.PREPARED },
         PartitionTransaction.prepareRecords exampleTxDirty.update_cache 10) :=
  (C7_prepare_emits_changelog exampleTxDirty rfl rfl 10).1

/-- C8: used as a scoped resource, the transaction flushes on clean exit
(no exception, not failed) and attempts no flush when the body raised or the
transaction already failed. -/
theorem C8_scoped_exit {Val : Type} (tx : PartitionTransaction Val)
    (exc : Bool) :
    ((exc = false ∧ tx.failed = false) →
      tx.exitScope exc = (true, tx.flush Option.none Option.none)) ∧
    ((exc = true ∨ tx.failed = true) →
      tx.exitScope exc = (false, (Except.ok (), tx, ⟨[], false⟩))) ∧
    ((tx.exitScope exc).1 = true ↔ (exc = false ∧ tx.failed = false)) := by
  unfold PartitionTransaction.exitScope
  by_cases h : exc = false ∧ tx.failed = false
  · rw [if_pos h]
    refine ⟨fun _ => rfl, fun hcontra => ?_, by simp [h]⟩
    obtain ⟨he, hf⟩ := h
    rcases hcontra with h1 | h1
    · rw [he] at h1; exact Bool.noConfusion h1
    · rw [hf] at h1; exact Bool.noConfusion h1
  · rw [if_neg h]
    refine ⟨fun hcontra => absurd hcontra h, fun _ => rfl, by simp [h]⟩

/-- C9: with an empty update cache, `flush` succeeds without consulting the
store's recorded changelog offset, even when the supplied changelog offset is
strictly below the recorded one — the empty-cache early return bypasses the
monotonicity check. -/
theorem C9_empty_cache_skips_monotonicity {Val : Type}
    (tx : PartitionTransaction Val)
    (hs : tx.status = PartitionTransactionStatus.STARTED ∨
          tx.status = PartitionTransactionStatus.PREPARED)
    (hc : tx.update_cache = []) (m current : Int)
    (hcur : tx.partition.changelogOffset = some current) (hlt : m < current)
    (po : Option Int) :
    tx.flush po (some m)
      = (Except.ok (),
         { tx with status := PartitionTransactionStatus.COMPLETE },
         ⟨[], false⟩) :=
  flush_empty tx hs hc po (some m)

/-- Witness for C9: recorded offset 10, supplied offset 3, empty cache. -/
theorem C9_empty_cache_skips_monotonicity_witness :
    exampleTx.flush (some 3) (some 3)
      = (Except.ok (),
         { exampleTx with status := PartitionTransactionStatus.COMPLETE },
         ⟨[], false⟩) :=
  C9_empty_cache_skips_monotonicity exampleTx (Or.inl rfl) rfl 3 10 rfl
    (by decide) (some 3)

/-- C10: an empty prefix contributes nothing to the serialized storage key —
no separator byte is prepended; a non-empty prefix is followed by the
separator and then the key bytes. -/
theorem C10_prefix_separator {Val : Type} (tx : PartitionTransaction Val)
    (key : Val) (kb : Bytes) (hk : tx.dumps key = Except.ok kb) :
    tx.serializeKey key [] = Except.ok kb ∧
    ∀ pfx : Bytes, pfx ≠ [] →
      tx.serializeKey key pfx = Except.ok (pfx ++ PREFIX_SEPARATOR ++ kb) := by
  constructor
  · simp [PartitionTransaction.serializeKey, hk]
  · intro pfx hp
    simp [PartitionTransaction.serializeKey, hk, hp]

/-- Witness for C10 at key 3 with prefix [1]. -/
theorem C10_prefix_separator_witness :
    exampleTx.serializeKey 3 [] = Except.ok [3] ∧
    exampleTx.serializeKey 3 [1] = Except.ok ([1] ++ PREFIX_SEPARATOR ++ [3]) :=
  ⟨(C10_prefix_separator exampleTx 3 [3] rfl).1,
   (C10_prefix_separator exampleTx 3 [3] rfl).2 [1] (by decide)⟩
